import Mathlib

/-!
Shallow embedding of the multi-provider fallback dispatcher of
`src/services/ai_manager.py` (class `AIManager`), the component the
specification documents.

Modelling choices, each tied to the Python source:

* A provider entry (`self.providers[name]`, a Python dict) is a
  `ProviderInfo` record.  Fields read through `.get(key, default)` in the
  source (`priority`, `max_errors`, `consecutive_failures`, `error`) are
  `Option`-valued, with the source's defaults applied at the use sites,
  exactly where the source applies them.  The `client` field and the
  HuggingFace-specific `models` / `current_model_index` bookkeeping are
  external-I/O details abstracted into the `invoke` oracle below.
* `self.providers` (a Python dict, insertion-ordered, mutated in place) is
  an association list; in-place mutation of an existing entry is `setProv`,
  which rewrites the value at the key and touches nothing else.
* `self.disabled_providers` (a Python set, only ever tested for membership
  and `add`ed to) is a list with membership-preserving insertion.
* The body of one provider invocation (lines 202-263: the per-provider
  `client` calls producing `response_text`, or raising) is external I/O and
  is abstracted as an oracle `invoke : String → Except String (Option String)`:
  `.error e` is a raised exception with message `e`, `.ok none` is
  `response_text` still `None` after the branch, `.ok (some t)` is
  `response_text = t`.  Everything the dispatcher itself does with that
  outcome (lines 265-276) is embedded literally.
* `generate_content`'s outer `try/except` (lines 191, 282-284) can only be
  reached by an exception escaping the loop; in the embedding every
  operation is a total function, so the embedding of `generate_content` is
  itself total — the "never raises" guarantee is totality of the model.
* The embedding additionally records, per dispatch, which providers were
  skipped (a `continue` at lines 194-199 before the `try` block is entered)
  and which were tried (the `try` block entered); this ghost trace changes
  no behaviour and is the `DispatchResult` observability data of the spec.
-/

/-- One entry of `self.providers` in `ai_manager.py`: the keys the
dispatcher logic reads.  `error` is the last stored failure message. -/
structure ProviderInfo where
  available : Bool
  priority : Option Nat := none
  max_errors : Option Nat := none
  consecutive_failures : Option Nat := none
  error : Option String := none
deriving DecidableEq

/-- The mutable state of the `AIManager` instance (`__init__`, lines 39-48):
the provider map, the fallback order, and the disabled-provider set.
(`provider_stats` is initialised in the source but never used.) -/
structure AIManager where
  providers : List (String × ProviderInfo)
  fallback_order : List String
  disabled_providers : List String
deriving DecidableEq

/-- Dictionary lookup `self.providers.get(name)` on the association list. -/
def lookupProv : List (String × ProviderInfo) → String → Option ProviderInfo
  | [], _ => none
  | (k, v) :: rest, name => if k = name then some v else lookupProv rest name

/-- In-place update `self.providers[name] = info` for a key already present:
rewrites the value stored at `name`, leaving every other entry alone. -/
def setProv (ps : List (String × ProviderInfo)) (name : String) (q : ProviderInfo) :
    List (String × ProviderInfo) :=
  ps.map (fun kv => if kv.1 = name then (kv.1, q) else kv)

/-- `self.disabled_providers.add(name)`: set insertion, membership only. -/
def addDisabled (s : List String) (name : String) : List String :=
  if name ∈ s then s else name :: s

/-- `AIManager._register_success` (lines 171-175): if the name is a key of
`self.providers`, set its `consecutive_failures` to 0; otherwise do
nothing. -/
def registerSuccess (m : AIManager) (name : String) : AIManager :=
  match lookupProv m.providers name with
  | none => m
  | some p =>
    { m with providers := setProv m.providers name { p with consecutive_failures := some 0 } }

/-- `AIManager._register_failure` (lines 177-186).  If the name is a key of
`self.providers`: increment `consecutive_failures` (`.get(..., 0) + 1`),
store the error message under `error`, and when the new count reaches
`max_errors` (`.get(..., 2)`) add the name to `disabled_providers` and set
`available = False`.  The Python function has no `return` statement, so its
Python return value is `None`: the second component is always `none`. -/
def registerFailureFull (m : AIManager) (name err : String) : AIManager × Option Nat :=
  match lookupProv m.providers name with
  | none => (m, none)
  | some p =>
    let cf := p.consecutive_failures.getD 0 + 1
    let p1 : ProviderInfo := { p with consecutive_failures := some cf, error := some err }
    let m1 : AIManager :=
      if p1.max_errors.getD 2 ≤ cf then
        { m with providers := setProv m.providers name { p1 with available := false },
                 disabled_providers := addDisabled m.disabled_providers name }
      else
        { m with providers := setProv m.providers name p1 }
    (m1, none)

/-- The state effect of `_register_failure` (its only effect besides the
implicit `None` return value). -/
def registerFailure (m : AIManager) (name err : String) : AIManager :=
  (registerFailureFull m name err).1

/-- Python `str.strip()`: drop leading and trailing whitespace characters
(modelled on the character list with `Char.isWhitespace`). -/
def pyStrip (s : String) : String :=
  ⟨((s.data.dropWhile Char.isWhitespace).reverse.dropWhile Char.isWhitespace).reverse⟩

/-- Python `str.lower()`: lower-case character by character. -/
def pyLower (s : String) : String :=
  ⟨s.data.map Char.toLower⟩

/-- Python substring test `sub in s` on character lists. -/
def charsContain (sub : List Char) : List Char → Bool
  | [] => sub.isEmpty
  | c :: rest => sub.isPrefixOf (c :: rest) || charsContain sub rest

/-- `kw in prompt.lower()` as used by `_generate_basic_response`. -/
def lowerContains (prompt kw : String) : Bool :=
  charsContain kw.toList (pyLower prompt).toList

/-- `AIManager._generate_basic_response` (lines 287-350): keyword-sniffing
fallback answer; the canned literals are transcribed from the source with
`\x7b`/`\x7d` for braces. -/
def generateBasicResponse (prompt : String) : String :=
  if lowerContains prompt "driver" || lowerContains prompt "direção" ||
      lowerContains prompt "navegação" then
    "[\n                \x7b\"nome\": \"Crescimento Seguro\", \"gatilho_central\": \"Medo de falha\", \"definicao_visceral\": \"Superar obstáculos com confiança\"\x7d,\n                \x7b\"nome\": \"Potencial Desbloqueado\", \"gatilho_central\": \"Desejo de crescimento\", \"definicao_visceral\": \"Liberar capacidades ocultas\"\x7d,\n                \x7b\"nome\": \"Direção Clara\", \"gatilho_central\": \"Incerteza\", \"definicao_visceral\": \"Encontrar caminho para sucesso\"\x7d\n            ]"
  else if lowerContains prompt "prova" || lowerContains prompt "visual" ||
      lowerContains prompt "evidência" then
    "[\n                \x7b\"nome\": \"Prova de Urgência\", \"categoria\": \"urgencia\", \"objetivo\": \"Criar senso de urgência\"\x7d,\n                \x7b\"nome\": \"Prova Social\", \"categoria\": \"social\", \"objetivo\": \"Validação por pares\"\x7d,\n                \x7b\"nome\": \"Prova de Autoridade\", \"categoria\": \"autoridade\", \"objetivo\": \"Demonstrar expertise\"\x7d\n            ]"
  else if lowerContains prompt "objeção" || lowerContains prompt "objection" ||
      lowerContains prompt "impedimento" then
    "[\n                \x7b\"objecao\": \"Não tenho tempo\", \"categoria\": \"tempo\", \"resposta\": \"Foque no valor do tempo\"\x7d,\n                \x7b\"objecao\": \"Muito caro\", \"categoria\": \"dinheiro\", \"resposta\": \"Mostre o ROI\"\x7d,\n                \x7b\"objecao\": \"Preciso pensar\", \"categoria\": \"necessidade\", \"resposta\": \"Crie urgência\"\x7d\n            ]"
  else if lowerContains prompt "pitch" || lowerContains prompt "apresentação" then
    "\x7b\n                \"fases\": [\n                    \x7b\"fase\": \"quebra\", \"objetivo\": \"Quebrar ilusão\", \"script\": \"A realidade é diferente do que parece\"\x7d,\n                    \x7b\"fase\": \"exposicao\", \"objetivo\": \"Mostrar problema\", \"script\": \"Aqui está o verdadeiro desafio\"\x7d,\n                    \x7b\"fase\": \"solucao\", \"objetivo\": \"Apresentar solução\", \"script\": \"Esta é a resposta\"\x7d\n                ]\n            \x7d"
  else if lowerContains prompt "avatar" || lowerContains prompt "persona" then
    "\n            Avatar Empresarial:\n            - Perfil: Empreendedor entre 35-45 anos\n            - Dores: Sobrecarga, medo de falha, dificuldade para delegar\n            - Desejos: Crescimento sustentável, liberdade financeira, reconhecimento\n            - Medos: Perder controle, falhar, não ser visto como líder\n            "
  else if lowerContains prompt "previsão" || lowerContains prompt "futuro" ||
      lowerContains prompt "tendências" then
    "\x7b\n                \"cenarios\": \x7b\n                    \"curto_prazo\": \x7b\"tendencias\": [\"Digitalização\", \"Automação\"], \"oportunidades\": [\"Nichos específicos\"]\x7d,\n                    \"medio_prazo\": \x7b\"tendencias\": [\"IA mainstream\", \"Sustentabilidade\"], \"oportunidades\": [\"Parcerias estratégicas\"]\x7d,\n                    \"longo_prazo\": \x7b\"tendencias\": [\"Economia digital\"], \"oportunidades\": [\"Mercados globais\"]\x7d\n                \x7d\n            \x7d"
  else if lowerContains prompt "código" || lowerContains prompt "excluir" ||
      lowerContains prompt "remover" then
    "\n            Recomendações de Código para Exclusão:\n            - Funções redundantes ou não utilizadas.\n            - Módulos com funcionalidade obsoleta.\n            - Configurações de API que não estão mais em uso.\n            - Arquivos de log ou temporários de longa data.\n            - Bibliotecas desatualizadas sem planos de atualização.\n            "
  else
    "Análise básica para: " ++ prompt.take 100 ++
      "... - Sistema funcionando em modo básico. Configure APIs para análise completa."

/-- The exception message raised at line 271 for an empty/too-short
provider response, which is then passed to `_register_failure`. -/
def emptyShortMsg : String := "Resposta vazia ou muito curta do provedor."

/-- The acceptance test of line 265,
`if response_text and len(response_text.strip()) > 10`, on the possibly
absent raw text: true iff the text is present, truthy (non-empty), and its
stripped length strictly exceeds 10. -/
def acceptableText : Option String → Bool
  | some t => !(t = "") && decide (10 < (pyStrip t).length)
  | none => false

/-- Ghost observability event: one provider either skipped by a `continue`
before its `try` block (lines 194-199) or actually tried (lines 201-276). -/
inductive Attempt where
  | skipped (name : String)
  | tried (name : String)
deriving DecidableEq

/-- Result of one dispatch: the mutated manager state, the returned string,
whether the return came from `_generate_basic_response` (degraded), and the
ghost skipped/tried trace. -/
structure DispatchOutcome where
  state : AIManager
  output : String
  degraded : Bool
  events : List Attempt
deriving DecidableEq

/-- The `for provider_name in self.fallback_order` loop of
`AIManager.generate_content` (lines 193-280), one list element per
iteration, threading the mutated state.  `invoke name` is the oracle for
the external provider call (see the header comment).  Acceptance of a raw
result `t` is the source's `if response_text and len(response_text.strip()) > 10`
(line 265); on acceptance the stripped text is returned and a success is
registered, otherwise the per-provider `except` records a failure and the
loop continues; an exhausted loop falls through to
`_generate_basic_response(prompt)` (line 280). -/
def generateContentAux (invoke : String → Except String (Option String)) (prompt : String) :
    AIManager → List String → DispatchOutcome
  | m, [] => ⟨m, generateBasicResponse prompt, true, []⟩
  | m, name :: rest =>
    if name ∈ m.disabled_providers then
      let r := generateContentAux invoke prompt m rest
      { r with events := .skipped name :: r.events }
    else
      match lookupProv m.providers name with
      | none =>
        let r := generateContentAux invoke prompt m rest
        { r with events := .skipped name :: r.events }
      | some info =>
        if info.available = false then
          let r := generateContentAux invoke prompt m rest
          { r with events := .skipped name :: r.events }
        else
          match invoke name with
          | .error e =>
            let r := generateContentAux invoke prompt (registerFailure m name e) rest
            { r with events := .tried name :: r.events }
          | .ok none =>
            let r := generateContentAux invoke prompt (registerFailure m name emptyShortMsg) rest
            { r with events := .tried name :: r.events }
          | .ok (some t) =>
            if acceptableText (some t) then
              ⟨registerSuccess m name, (pyStrip t), false, [.tried name]⟩
            else
              let r := generateContentAux invoke prompt (registerFailure m name emptyShortMsg) rest
              { r with events := .tried name :: r.events }

/-- `AIManager.generate_content(prompt, ...)` (lines 189-284): run the
fallback loop over the current `fallback_order`. -/
def generate_content (invoke : String → Except String (Option String))
    (m : AIManager) (prompt : String) : DispatchOutcome :=
  generateContentAux invoke prompt m m.fallback_order

/-- A sequence of consecutive recorded failures for one provider, with no
intervening success: `_register_failure` folded over the error messages. -/
def applyFailures (m : AIManager) (name : String) (errs : List String) : AIManager :=
  errs.foldl (fun s e => registerFailure s name e) m

/-- The sort key of line 168:
`self.providers.get(p, {}).get('priority', float('inf'))`; `none` is the
`float('inf')` default for a missing provider or a missing priority. -/
def priorityKey (m : AIManager) (name : String) : Option Nat :=
  match lookupProv m.providers name with
  | some p => p.priority
  | none => none

/-- Comparison on sort keys, with `none` as positive infinity. -/
def keyLe : Option Nat → Option Nat → Bool
  | some a, some b => a ≤ b
  | some _, none => true
  | none, some _ => false
  | none, none => true

/-- The stable in-place sort `self.fallback_order.sort(key=...)` of line
168, modelled by the (stable) `List.mergeSort`. -/
def sortFallback (m : AIManager) : List String :=
  m.fallback_order.mergeSort (fun a b => keyLe (priorityKey m a) (priorityKey m b))

/-- Availability is monotone from `m` to `m'`: every registered provider
stays registered, and one whose `available` flag is already `false` never
has it set back to `true`. -/
def AvailMono (m m' : AIManager) : Prop :=
  ∀ a p, lookupProv m.providers a = some p →
    ∃ q, lookupProv m'.providers a = some q ∧ (p.available = false → q.available = false)

/-- A name in the disabled set either is not a key of the provider map or
has its `available` flag `false`. -/
def entryDisabledOk (ps : List (String × ProviderInfo)) (name : String) : Bool :=
  match lookupProv ps name with
  | some p => !p.available
  | none => true

/-- The two representations of disablement agree: every member of
`disabled_providers` has `available = False` in `providers`. -/
def disabledConsistent (m : AIManager) : Bool :=
  m.disabled_providers.all (entryDisabledOk m.providers)

/-- Concrete fixture: a healthy priority-1 provider entry as built by
the provider setup of lines 65-72. -/
def pHealthy : ProviderInfo :=
  { available := true, priority := some 1, max_errors := some 2,
    consecutive_failures := some 0 }

/-- Concrete fixture: a healthy priority-2 provider entry (lines 122-129). -/
def pHealthy2 : ProviderInfo :=
  { available := true, priority := some 2, max_errors := some 2,
    consecutive_failures := some 0 }

/-- Concrete fixture: a provider disabled after crossing its threshold. -/
def pDown : ProviderInfo :=
  { available := false, priority := some 1, max_errors := some 2,
    consecutive_failures := some 2, error := some "falha" }

/-- Concrete fixture: a manager with no registered providers. -/
def mEmpty : AIManager :=
  { providers := [], fallback_order := [], disabled_providers := [] }

/-- Concrete fixture: a manager with one healthy provider. -/
def mOne : AIManager :=
  { providers := [("gemini", pHealthy)], fallback_order := ["gemini"],
    disabled_providers := [] }

/-- Concrete fixture: a healthy provider one failure away from its
threshold. -/
def pAlmost : ProviderInfo :=
  { available := true, priority := some 1, max_errors := some 2,
    consecutive_failures := some 1 }

/-- Concrete fixture: a manager whose single provider is one failure away
from being disabled. -/
def mAlmost : AIManager :=
  { providers := [("gemini", pAlmost)], fallback_order := ["gemini"],
    disabled_providers := [] }

/-- Concrete fixture: highest-priority provider disabled, lower-priority
provider healthy. -/
def mAB : AIManager :=
  { providers := [("gemini", pDown), ("groq", pHealthy2)],
    fallback_order := ["gemini", "groq"], disabled_providers := ["gemini"] }

/-- Concrete fixture: two providers registered with the same priority. -/
def mTie : AIManager :=
  { providers := [("gemini", pHealthy), ("groq", pHealthy)],
    fallback_order := ["gemini", "groq"], disabled_providers := [] }

/-- Concrete oracle: every provider call returns a long enough text. -/
def invokeLong : String → Except String (Option String) :=
  fun _ => Except.ok (some "resposta detalhada do provedor")

/-- Concrete oracle: every provider call raises. -/
def invokeBoom : String → Except String (Option String) :=
  fun _ => Except.error "falha de rede"

/-- Concrete oracle: every provider call returns the empty string. -/
def invokeEmpty : String → Except String (Option String) :=
  fun _ => Except.ok (some "")

/-! ### Basic lemmas about the association-list provider map -/

theorem setProv_cons (k : String) (v : ProviderInfo) (rest : List (String × ProviderInfo))
    (name : String) (q : ProviderInfo) :
    setProv ((k, v) :: rest) name q =
      (if k = name then (k, q) else (k, v)) :: setProv rest name q := by
  by_cases hk : k = name
  · simp [setProv, hk]
  · simp [setProv, hk]

theorem lookup_setProv_self (ps : List (String × ProviderInfo)) (name : String)
    (p q : ProviderInfo) (h : lookupProv ps name = some p) :
    lookupProv (setProv ps name q) name = some q := by
  induction ps with
  | nil => simp [lookupProv] at h
  | cons kv rest ih =>
    obtain ⟨k, v⟩ := kv
    rw [setProv_cons]
    by_cases hk : k = name
    · rw [if_pos hk]
      simp [lookupProv, hk]
    · rw [if_neg hk]
      have h2 : lookupProv rest name = some p := by
        simpa [lookupProv, hk] using h
      simpa [lookupProv, hk] using ih h2

theorem lookup_setProv_ne (ps : List (String × ProviderInfo)) (name a : String)
    (q : ProviderInfo) (h : a ≠ name) :
    lookupProv (setProv ps name q) a = lookupProv ps a := by
  induction ps with
  | nil => simp [lookupProv, setProv]
  | cons kv rest ih =>
    obtain ⟨k, v⟩ := kv
    rw [setProv_cons]
    by_cases hk : k = name
    · rw [if_pos hk]
      have hka : ¬ k = a := fun hh => h (hh ▸ hk)
      simpa [lookupProv, hka] using ih
    · rw [if_neg hk]
      by_cases hka : k = a
      · simp [lookupProv, hka]
      · simpa [lookupProv, hka] using ih

/-! ### Characterisation of `_register_success` -/

theorem registerSuccess_lookup_self (m : AIManager) (name : String) (p : ProviderInfo)
    (h : lookupProv m.providers name = some p) :
    lookupProv (registerSuccess m name).providers name =
      some { p with consecutive_failures := some 0 } := by
  unfold registerSuccess
  rw [h]
  exact lookup_setProv_self _ _ _ _ h

theorem registerSuccess_lookup_ne (m : AIManager) (name a : String) (h : a ≠ name) :
    lookupProv (registerSuccess m name).providers a = lookupProv m.providers a := by
  unfold registerSuccess
  cases hl : lookupProv m.providers name with
  | none => rfl
  | some p => exact lookup_setProv_ne _ _ _ _ h

theorem registerSuccess_of_none (m : AIManager) (name : String)
    (h : lookupProv m.providers name = none) : registerSuccess m name = m := by
  unfold registerSuccess
  rw [h]

theorem registerSuccess_disabled (m : AIManager) (name : String) :
    (registerSuccess m name).disabled_providers = m.disabled_providers := by
  unfold registerSuccess
  cases hl : lookupProv m.providers name <;> rfl

/-! ### Characterisation of `_register_failure` -/

theorem registerFailure_lookup_self (m : AIManager) (name err : String) (p : ProviderInfo)
    (h : lookupProv m.providers name = some p) :
    lookupProv (registerFailure m name err).providers name =
      some { p with
        consecutive_failures := some (p.consecutive_failures.getD 0 + 1),
        error := some err,
        available :=
          if p.max_errors.getD 2 ≤ p.consecutive_failures.getD 0 + 1 then false
          else p.available } := by
  unfold registerFailure registerFailureFull
  rw [h]
  by_cases hc : p.max_errors.getD 2 ≤ p.consecutive_failures.getD 0 + 1
  · simp only [hc, if_pos hc, if_true]
    exact lookup_setProv_self _ _ _ _ h
  · simp only [hc, if_neg hc, if_false]
    exact lookup_setProv_self _ _ _ _ h

theorem registerFailure_lookup_ne (m : AIManager) (name err a : String) (h : a ≠ name) :
    lookupProv (registerFailure m name err).providers a = lookupProv m.providers a := by
  unfold registerFailure registerFailureFull
  cases hl : lookupProv m.providers name with
  | none => rfl
  | some p =>
    by_cases hc : p.max_errors.getD 2 ≤ p.consecutive_failures.getD 0 + 1
    · simp only [hc, if_pos hc]
      exact lookup_setProv_ne _ _ _ _ h
    · simp only [hc, if_neg hc]
      exact lookup_setProv_ne _ _ _ _ h

theorem registerFailure_of_none (m : AIManager) (name err : String)
    (h : lookupProv m.providers name = none) : registerFailure m name err = m := by
  unfold registerFailure registerFailureFull
  rw [h]

theorem registerFailure_disabled_mono (m : AIManager) (name err a : String)
    (h : a ∈ m.disabled_providers) :
    a ∈ (registerFailure m name err).disabled_providers := by
  unfold registerFailure registerFailureFull
  cases hl : lookupProv m.providers name with
  | none => exact h
  | some p =>
    by_cases hc : p.max_errors.getD 2 ≤ p.consecutive_failures.getD 0 + 1
    · simp only [hc, if_pos hc]
      unfold addDisabled
      by_cases hm : name ∈ m.disabled_providers
      · simpa [hm] using h
      · simp [hm]
        exact Or.inr h
    · simpa [hc] using h

/-! ### Monotonicity of the `available` flag -/

theorem availMono_refl (m : AIManager) : AvailMono m m :=
  fun _ p hp => ⟨p, hp, fun h => h⟩

theorem availMono_trans (m1 m2 m3 : AIManager) (h12 : AvailMono m1 m2)
    (h23 : AvailMono m2 m3) : AvailMono m1 m3 := by
  intro a p hp
  obtain ⟨q, hq, hpq⟩ := h12 a p hp
  obtain ⟨r, hr, hqr⟩ := h23 a q hq
  exact ⟨r, hr, fun h => hqr (hpq h)⟩

theorem availMono_registerSuccess (m : AIManager) (name : String) :
    AvailMono m (registerSuccess m name) := by
  intro a p hp
  by_cases ha : a = name
  · subst ha
    exact ⟨{ p with consecutive_failures := some 0 },
      registerSuccess_lookup_self m a p hp, fun h => h⟩
  · exact ⟨p, by rw [registerSuccess_lookup_ne m name a ha]; exact hp, fun h => h⟩

theorem availMono_registerFailure (m : AIManager) (name err : String) :
    AvailMono m (registerFailure m name err) := by
  intro a p hp
  by_cases ha : a = name
  · subst ha
    refine ⟨_, registerFailure_lookup_self m a err p hp, ?_⟩
    intro h
    show (if p.max_errors.getD 2 ≤ p.consecutive_failures.getD 0 + 1 then false
          else p.available) = false
    by_cases hc : p.max_errors.getD 2 ≤ p.consecutive_failures.getD 0 + 1
    · simp [hc]
    · simp [hc, h]
  · exact ⟨p, by rw [registerFailure_lookup_ne m name err a ha]; exact hp, fun h => h⟩

theorem availMono_generateContentAux (invoke : String → Except String (Option String))
    (prompt : String) :
    ∀ (order : List String) (m : AIManager),
      AvailMono m (generateContentAux invoke prompt m order).state
  | [], m => availMono_refl m
  | name :: rest, m => by
    have ih := fun m' => availMono_generateContentAux invoke prompt rest m'
    simp only [generateContentAux]
    by_cases hd : name ∈ m.disabled_providers
    · simpa [hd] using ih m
    · simp only [hd, if_neg hd, if_false]
      cases hl : lookupProv m.providers name with
      | none => simpa using ih m
      | some info =>
        by_cases hav : info.available = false
        · simpa [hav] using ih m
        · simp only [hav, if_neg hav, if_false]
          cases hi : invoke name with
          | error e =>
            exact availMono_trans _ _ _ (availMono_registerFailure m name e)
              (ih (registerFailure m name e))
          | ok r =>
            cases r with
            | none =>
              exact availMono_trans _ _ _ (availMono_registerFailure m name emptyShortMsg)
                (ih (registerFailure m name emptyShortMsg))
            | some t =>
              by_cases hacc : acceptableText (some t) = true
              · simpa [hacc] using availMono_registerSuccess m name
              · simp only [hacc, if_neg hacc, if_false]
                exact availMono_trans _ _ _
                  (availMono_registerFailure m name emptyShortMsg)
                  (ih (registerFailure m name emptyShortMsg))

/-! ### One step of the dispatch loop, branch by branch -/

theorem generateContentAux_skip_disabled (invoke : String → Except String (Option String))
    (prompt name : String) (rest : List String) (m : AIManager)
    (hd : name ∈ m.disabled_providers) :
    generateContentAux invoke prompt m (name :: rest) =
      { generateContentAux invoke prompt m rest with
          events := Attempt.skipped name :: (generateContentAux invoke prompt m rest).events } := by
  simp [generateContentAux, hd]

theorem generateContentAux_skip_missing (invoke : String → Except String (Option String))
    (prompt name : String) (rest : List String) (m : AIManager)
    (hd : name ∉ m.disabled_providers) (hl : lookupProv m.providers name = none) :
    generateContentAux invoke prompt m (name :: rest) =
      { generateContentAux invoke prompt m rest with
          events := Attempt.skipped name :: (generateContentAux invoke prompt m rest).events } := by
  simp [generateContentAux, hd, hl]

theorem generateContentAux_skip_unavailable (invoke : String → Except String (Option String))
    (prompt name : String) (rest : List String) (m : AIManager) (info : ProviderInfo)
    (hd : name ∉ m.disabled_providers) (hl : lookupProv m.providers name = some info)
    (hav : info.available = false) :
    generateContentAux invoke prompt m (name :: rest) =
      { generateContentAux invoke prompt m rest with
          events := Attempt.skipped name :: (generateContentAux invoke prompt m rest).events } := by
  simp [generateContentAux, hd, hl, hav]

theorem generateContentAux_fail_error (invoke : String → Except String (Option String))
    (prompt name : String) (rest : List String) (m : AIManager) (info : ProviderInfo)
    (e : String) (hd : name ∉ m.disabled_providers)
    (hl : lookupProv m.providers name = some info) (hav : info.available = true)
    (hi : invoke name = Except.error e) :
    generateContentAux invoke prompt m (name :: rest) =
      { generateContentAux invoke prompt (registerFailure m name e) rest with
          events := Attempt.tried name ::
            (generateContentAux invoke prompt (registerFailure m name e) rest).events } := by
  simp [generateContentAux, hd, hl, hav, hi]

theorem generateContentAux_fail_none (invoke : String → Except String (Option String))
    (prompt name : String) (rest : List String) (m : AIManager) (info : ProviderInfo)
    (hd : name ∉ m.disabled_providers) (hl : lookupProv m.providers name = some info)
    (hav : info.available = true) (hi : invoke name = Except.ok none) :
    generateContentAux invoke prompt m (name :: rest) =
      { generateContentAux invoke prompt (registerFailure m name emptyShortMsg) rest with
          events := Attempt.tried name ::
            (generateContentAux invoke prompt (registerFailure m name emptyShortMsg) rest).events } := by
  simp [generateContentAux, hd, hl, hav, hi]

theorem generateContentAux_fail_short (invoke : String → Except String (Option String))
    (prompt name : String) (rest : List String) (m : AIManager) (info : ProviderInfo)
    (t : String) (hd : name ∉ m.disabled_providers)
    (hl : lookupProv m.providers name = some info) (hav : info.available = true)
    (hi : invoke name = Except.ok (some t)) (hacc : acceptableText (some t) = false) :
    generateContentAux invoke prompt m (name :: rest) =
      { generateContentAux invoke prompt (registerFailure m name emptyShortMsg) rest with
          events := Attempt.tried name ::
            (generateContentAux invoke prompt (registerFailure m name emptyShortMsg) rest).events } := by
  simp [generateContentAux, hd, hl, hav, hi, hacc]

theorem generateContentAux_success_step (invoke : String → Except String (Option String))
    (prompt name : String) (rest : List String) (m : AIManager) (info : ProviderInfo)
    (t : String) (hd : name ∉ m.disabled_providers)
    (hl : lookupProv m.providers name = some info) (hav : info.available = true)
    (hi : invoke name = Except.ok (some t)) (hacc : acceptableText (some t) = true) :
    generateContentAux invoke prompt m (name :: rest) =
      ⟨registerSuccess m name, (pyStrip t), false, [Attempt.tried name]⟩ := by
  simp [generateContentAux, hd, hl, hav, hi, hacc]

/-! ### Output shape of the dispatch loop -/

set_option maxRecDepth 4096 in
theorem generateBasicResponse_length (prompt : String) :
    1 ≤ (generateBasicResponse prompt).length := by
  unfold generateBasicResponse
  repeat' split
  all_goals first
    | decide
    | (rw [String.length_append, String.length_append]
       have h : 1 ≤ ("Análise básica para: ").length := by decide
       omega)

theorem acceptableText_some_iff (t : String) :
    acceptableText (some t) = true ↔ (¬ t = "" ∧ 10 < (pyStrip t).length) := by
  simp [acceptableText]

theorem generateContentAux_output_char (invoke : String → Except String (Option String))
    (prompt : String) :
    ∀ (order : List String) (m : AIManager),
      ((generateContentAux invoke prompt m order).degraded = true ∧
        (generateContentAux invoke prompt m order).output = generateBasicResponse prompt) ∨
      ((generateContentAux invoke prompt m order).degraded = false ∧
        ∃ name t, invoke name = Except.ok (some t) ∧
          (generateContentAux invoke prompt m order).output = (pyStrip t) ∧
          10 < (pyStrip t).length)
  | [], m => by simp [generateContentAux]
  | name :: rest, m => by
    have ih := fun m' => generateContentAux_output_char invoke prompt rest m'
    by_cases hd : name ∈ m.disabled_providers
    · rw [generateContentAux_skip_disabled invoke prompt name rest m hd]
      simpa using ih m
    · cases hl : lookupProv m.providers name with
      | none =>
        rw [generateContentAux_skip_missing invoke prompt name rest m hd hl]
        simpa using ih m
      | some info =>
        cases hav : info.available with
        | false =>
          rw [generateContentAux_skip_unavailable invoke prompt name rest m info hd hl hav]
          simpa using ih m
        | true =>
          cases hi : invoke name with
          | error e =>
            rw [generateContentAux_fail_error invoke prompt name rest m info e hd hl hav hi]
            simpa using ih (registerFailure m name e)
          | ok r =>
            cases r with
            | none =>
              rw [generateContentAux_fail_none invoke prompt name rest m info hd hl hav hi]
              simpa using ih (registerFailure m name emptyShortMsg)
            | some t =>
              cases hacc : acceptableText (some t) with
              | true =>
                rw [generateContentAux_success_step invoke prompt name rest m info t hd hl hav
                  hi hacc]
                right
                exact ⟨rfl, name, t, hi, rfl, ((acceptableText_some_iff t).mp hacc).2⟩
              | false =>
                rw [generateContentAux_fail_short invoke prompt name rest m info t hd hl hav
                  hi hacc]
                simpa using ih (registerFailure m name emptyShortMsg)

/-! ### Claim C1 -/

/-- C1: the dispatch operation `AIManager.generate_content` never raises for
any input task (the embedding is a total function, matching the outer
catch-all of lines 282-284) and always returns a non-null string of length
at least 1; when the result is degraded — every provider failed or was
unavailable — the output is exactly the `_generate_basic_response` text. -/
theorem C1_generate_content_total_nonempty
    (invoke : String → Except String (Option String)) (m : AIManager) (prompt : String) :
    1 ≤ (generate_content invoke m prompt).output.length ∧
    ((generate_content invoke m prompt).degraded = true →
      (generate_content invoke m prompt).output = generateBasicResponse prompt) := by
  unfold generate_content
  rcases generateContentAux_output_char invoke prompt m.fallback_order m with
    ⟨hdeg, hout⟩ | ⟨hdeg, name, t, hi, hout, hlen⟩
  · refine ⟨?_, fun _ => hout⟩
    rw [hout]
    exact generateBasicResponse_length prompt
  · refine ⟨?_, fun hcon => ?_⟩
    · rw [hout]
      omega
    · rw [hdeg] at hcon
      cases hcon

/-- Witness for C1: with no registered provider and a raising oracle, the
dispatch still returns a non-empty string, namely the basic response. -/
theorem C1_witness :
    1 ≤ (generate_content invokeBoom mEmpty "ola").output.length ∧
    (generate_content invokeBoom mEmpty "ola").output = generateBasicResponse "ola" :=
  ⟨(C1_generate_content_total_nonempty invokeBoom mEmpty "ola").1,
   (C1_generate_content_total_nonempty invokeBoom mEmpty "ola").2 (by decide)⟩

/-! ### Claim C9 -/

/-- C9: whenever a dispatch returns a provider-produced (non-degraded)
result, the returned string is some provider's raw result stripped of
leading and trailing whitespace, and its length strictly exceeds 10. -/
theorem C9_success_output_is_trimmed
    (invoke : String → Except String (Option String)) (m : AIManager) (prompt : String)
    (h : (generate_content invoke m prompt).degraded = false) :
    10 < (generate_content invoke m prompt).output.length ∧
    ∃ name t, invoke name = Except.ok (some t) ∧
      (generate_content invoke m prompt).output = (pyStrip t) := by
  unfold generate_content at h ⊢
  rcases generateContentAux_output_char invoke prompt m.fallback_order m with
    ⟨hdeg, hout⟩ | ⟨hdeg, name, t, hi, hout, hlen⟩
  · rw [hdeg] at h
    cases h
  · refine ⟨?_, name, t, hi, hout⟩
    rw [hout]
    omega

/-- Witness for C9: a healthy provider returning a long text yields a
non-degraded dispatch whose output is that text trimmed. -/
theorem C9_witness :
    10 < (generate_content invokeLong mOne "ola").output.length ∧
    ∃ name t, invokeLong name = Except.ok (some t) ∧
      (generate_content invokeLong mOne "ola").output = (pyStrip t) :=
  C9_success_output_is_trimmed invokeLong mOne "ola" (by decide)

/-! ### Claim C3 -/

/-- C3: across a dispatch call the `available` flag is monotone — a
provider registered with `available = False` is still registered and still
has `available = False` afterwards; no operation of the dispatcher
re-enables a disabled provider. -/
theorem C3_available_monotone
    (invoke : String → Except String (Option String)) (m : AIManager) (prompt name : String)
    (p : ProviderInfo) (h : lookupProv m.providers name = some p)
    (hav : p.available = false) :
    ∃ q, lookupProv (generate_content invoke m prompt).state.providers name = some q ∧
      q.available = false := by
  obtain ⟨q, hq, himp⟩ := availMono_generateContentAux invoke prompt m.fallback_order m name p h
  exact ⟨q, hq, himp hav⟩

/-- Witness for C3: the disabled provider of `mAB` stays disabled across a
successful dispatch. -/
theorem C3_witness :
    ∃ q, lookupProv (generate_content invokeLong mAB "ola").state.providers "gemini" = some q ∧
      q.available = false :=
  C3_available_monotone invokeLong mAB "ola" "gemini" pDown (by decide) (by decide)

/-! ### Claim C2 -/

theorem failStreak_below (name : String) :
    ∀ (errs : List String) (m : AIManager) (p : ProviderInfo) (c : Nat),
      lookupProv m.providers name = some p →
      p.consecutive_failures.getD 0 = c →
      c + errs.length < p.max_errors.getD 2 →
      ∃ q, lookupProv (applyFailures m name errs).providers name = some q ∧
        q.available = p.available ∧
        q.consecutive_failures.getD 0 = c + errs.length ∧
        q.max_errors = p.max_errors
  | [], _, p, c, h, hc, _ => ⟨p, h, rfl, by simp [hc], rfl⟩
  | e :: es, m, p, c, h, hc, hlt => by
    simp only [List.length_cons] at hlt
    have hno : ¬ (p.max_errors.getD 2 ≤ p.consecutive_failures.getD 0 + 1) := by
      rw [hc]
      omega
    have hkey := registerFailure_lookup_self m name e p h
    rw [if_neg hno] at hkey
    obtain ⟨q, hq, hqa, hqc, hqm⟩ :=
      failStreak_below name es (registerFailure m name e) _ (c + 1) hkey
        (by simp [hc]) (show c + 1 + es.length < p.max_errors.getD 2 by omega)
    refine ⟨q, hq, hqa, ?_, hqm⟩
    simp only [List.length_cons]
    omega

theorem failStreak_cross (name : String) :
    ∀ (errs : List String) (m : AIManager) (p : ProviderInfo) (c : Nat),
      lookupProv m.providers name = some p →
      p.consecutive_failures.getD 0 = c →
      errs ≠ [] →
      c + errs.length = p.max_errors.getD 2 →
      ∃ q, lookupProv (applyFailures m name errs).providers name = some q ∧
        q.available = false
  | [], _, _, _, _, _, hne, _ => absurd rfl hne
  | e :: es, m, p, c, h, hc, _, hsum => by
    cases es with
    | nil =>
      simp only [List.length_cons, List.length_nil] at hsum
      have hyes : p.max_errors.getD 2 ≤ p.consecutive_failures.getD 0 + 1 := by
        rw [hc]
        omega
      have hkey := registerFailure_lookup_self m name e p h
      rw [if_pos hyes] at hkey
      exact ⟨_, hkey, rfl⟩
    | cons e2 es2 =>
      simp only [List.length_cons] at hsum
      have hno : ¬ (p.max_errors.getD 2 ≤ p.consecutive_failures.getD 0 + 1) := by
        rw [hc]
        omega
      have hkey := registerFailure_lookup_self m name e p h
      rw [if_neg hno] at hkey
      exact failStreak_cross name (e2 :: es2) (registerFailure m name e) _ (c + 1) hkey
        (by simp [hc]) (by simp)
        (show c + 1 + (e2 :: es2).length = p.max_errors.getD 2 by
          simp only [List.length_cons]
          omega)

/-- C2: for a provider registered with `available = True`, zero consecutive
failures and threshold `max_errors = N`, any streak of fewer than `N`
recorded failures leaves it available, and a streak of exactly `N` recorded
failures (N ≥ 1) makes `available = False` — the flag flips exactly on the
N-th failure, not before. -/
theorem C2_disable_on_nth_failure (m : AIManager) (name : String) (p : ProviderInfo) (N : Nat)
    (h : lookupProv m.providers name = some p)
    (hcf : p.consecutive_failures.getD 0 = 0)
    (hav : p.available = true)
    (hmax : p.max_errors.getD 2 = N) :
    (∀ errs : List String, errs.length < N →
      ∃ q, lookupProv (applyFailures m name errs).providers name = some q ∧
        q.available = true) ∧
    (∀ errs : List String, errs.length = N → 0 < N →
      ∃ q, lookupProv (applyFailures m name errs).providers name = some q ∧
        q.available = false) := by
  constructor
  · intro errs hlen
    obtain ⟨q, hq, hqa, _, _⟩ := failStreak_below name errs m p 0 h hcf (by omega)
    exact ⟨q, hq, by rw [hqa, hav]⟩
  · intro errs hlen hpos
    have hne : errs ≠ [] := by
      intro he
      subst he
      simp at hlen
      omega
    exact failStreak_cross name errs m p 0 h hcf hne (by omega)

/-- Witness for C2 with threshold 2: one failure keeps the provider
available, two consecutive failures disable it. -/
theorem C2_witness :
    (∃ q, lookupProv (applyFailures mOne "gemini" ["erro um"]).providers "gemini" = some q ∧
      q.available = true) ∧
    (∃ q, lookupProv (applyFailures mOne "gemini" ["erro um", "erro dois"]).providers
        "gemini" = some q ∧ q.available = false) :=
  ⟨(C2_disable_on_nth_failure mOne "gemini" pHealthy 2 (by decide) (by decide) (by decide)
      (by decide)).1 ["erro um"] (by decide),
   (C2_disable_on_nth_failure mOne "gemini" pHealthy 2 (by decide) (by decide) (by decide)
      (by decide)).2 ["erro um", "erro dois"] (by decide) (by decide)⟩

/-! ### Claim C5 -/

/-- C5: `_register_success` resets the named provider's
`consecutive_failures` to 0 (leaving all other fields alone) for every
prior failure count below the disable threshold, and is a no-op — not an
error — when the name is not a registered provider. -/
theorem C5_success_resets_counter (m : AIManager) (name : String) :
    (∀ p, lookupProv m.providers name = some p →
      p.consecutive_failures.getD 0 < p.max_errors.getD 2 →
      lookupProv (registerSuccess m name).providers name =
        some { p with consecutive_failures := some 0 }) ∧
    (lookupProv m.providers name = none → registerSuccess m name = m) :=
  ⟨fun p hp _ => registerSuccess_lookup_self m name p hp,
   fun h => registerSuccess_of_none m name h⟩

/-- Witness for C5: the counter of the registered provider is reset, and an
unknown name leaves the state untouched. -/
theorem C5_witness :
    lookupProv (registerSuccess mOne "gemini").providers "gemini" =
      some { pHealthy with consecutive_failures := some 0 } ∧
    registerSuccess mOne "desconhecido" = mOne :=
  ⟨(C5_success_resets_counter mOne "gemini").1 pHealthy (by decide) (by decide),
   (C5_success_resets_counter mOne "desconhecido").2 (by decide)⟩

/-! ### Claim C8 -/

theorem registerFailure_mem_disabled (m : AIManager) (name err : String) (p : ProviderInfo)
    (h : lookupProv m.providers name = some p)
    (hc : p.max_errors.getD 2 ≤ p.consecutive_failures.getD 0 + 1) :
    name ∈ (registerFailure m name err).disabled_providers := by
  unfold registerFailure registerFailureFull
  rw [h]
  simp only [hc, if_pos hc]
  by_cases hm : name ∈ m.disabled_providers <;> simp [addDisabled, hm]

theorem registerFailureFull_snd (m : AIManager) (name err : String) :
    (registerFailureFull m name err).2 = none := by
  unfold registerFailureFull
  cases h : lookupProv m.providers name <;> rfl

/-- C8 counterexample: at the concrete input (`mOne`, provider "gemini",
failure count going from 0 to 1) the claim says the operation returns the
updated failure count, but `_register_failure` has no `return` statement —
the state records the new count 1 while the Python return value is `None`,
not the count. -/
theorem C8_counterexample :
    (lookupProv (registerFailureFull mOne "gemini" "falha de rede").1.providers
        "gemini").map (fun q => q.consecutive_failures) = some (some 1) ∧
    (registerFailureFull mOne "gemini" "falha de rede").2 = none ∧
    (registerFailureFull mOne "gemini" "falha de rede").2 ≠ some 1 := by
  decide

/-- C8 (amended): `_register_failure` increments the named provider's
`consecutive_failures`, records the supplied error message in the
provider's stored error field, and when the count reaches `max_errors`
sets `available = False` and adds the name to the disabled set; the
operation returns `None` (no value) rather than the updated count. -/
theorem C8_failure_recording (m : AIManager) (name err : String) (p : ProviderInfo)
    (h : lookupProv m.providers name = some p) :
    (∃ q, lookupProv (registerFailureFull m name err).1.providers name = some q ∧
      q.consecutive_failures = some (p.consecutive_failures.getD 0 + 1) ∧
      q.error = some err ∧
      (p.max_errors.getD 2 ≤ p.consecutive_failures.getD 0 + 1 →
        q.available = false ∧
        name ∈ (registerFailureFull m name err).1.disabled_providers)) ∧
    (registerFailureFull m name err).2 = none := by
  refine ⟨⟨_, registerFailure_lookup_self m name err p h, rfl, rfl, fun hc => ⟨?_, ?_⟩⟩,
    registerFailureFull_snd m name err⟩
  · show (if p.max_errors.getD 2 ≤ p.consecutive_failures.getD 0 + 1 then false
        else p.available) = false
    rw [if_pos hc]
  · exact registerFailure_mem_disabled m name err p h hc

/-- Witness for C8 (amended) at a provider one failure away from its
threshold: the count reaches 2, the error is stored, the provider is
disabled, and the operation returns `None`. -/
theorem C8_witness :
    (registerFailureFull mAlmost "gemini" "falha final").2 = none ∧
    ∃ q, lookupProv (registerFailureFull mAlmost "gemini" "falha final").1.providers
        "gemini" = some q ∧
      q.consecutive_failures = some 2 ∧ q.error = some "falha final" ∧
      q.available = false ∧
      "gemini" ∈ (registerFailureFull mAlmost "gemini" "falha final").1.disabled_providers := by
  obtain ⟨⟨q, hq, hcf, herr, himp⟩, hret⟩ :=
    C8_failure_recording mAlmost "gemini" "falha final" pAlmost (by decide)
  obtain ⟨hav, hmem⟩ := himp (by decide)
  exact ⟨hret, q, hq, hcf, herr, hav, hmem⟩

/-! ### Claim C4 -/

theorem acceptableText_iff (r : Option String) :
    acceptableText r = true ↔ ∃ t, r = some t ∧ 10 < (pyStrip t).length := by
  cases r with
  | none => simp [acceptableText]
  | some t =>
    rw [acceptableText_some_iff]
    constructor
    · rintro ⟨-, hlen⟩
      exact ⟨t, rfl, hlen⟩
    · rintro ⟨u, hu, hlen⟩
      injection hu with hu
      subst hu
      refine ⟨?_, hlen⟩
      intro he
      subst he
      exact absurd hlen (by decide)

/-- C4: a provider's raw result is accepted iff it is non-null and its
stripped length strictly exceeds 10; an accepted result ends the dispatch
with the stripped text and a success registration, while a rejected result
(`None` or too short, such as the empty string) is recorded as a failure
through `_register_failure` — incrementing `consecutive_failures` exactly
as a raised exception would — and the loop moves on to the remaining
providers (falling through to the basic response if none remain). -/
theorem C4_result_acceptance (invoke : String → Except String (Option String))
    (prompt : String) (m : AIManager) (name : String) (rest : List String)
    (r : Option String) (info : ProviderInfo)
    (hd : name ∉ m.disabled_providers)
    (hl : lookupProv m.providers name = some info)
    (hav : info.available = true)
    (hi : invoke name = Except.ok r) :
    (acceptableText r = true ↔ ∃ t, r = some t ∧ 10 < (pyStrip t).length) ∧
    (∀ t, r = some t → acceptableText r = true →
      generateContentAux invoke prompt m (name :: rest) =
        ⟨registerSuccess m name, pyStrip t, false, [Attempt.tried name]⟩) ∧
    (acceptableText r = false →
      generateContentAux invoke prompt m (name :: rest) =
        { generateContentAux invoke prompt (registerFailure m name emptyShortMsg) rest with
            events := Attempt.tried name ::
              (generateContentAux invoke prompt
                (registerFailure m name emptyShortMsg) rest).events } ∧
      ∃ q, lookupProv (registerFailure m name emptyShortMsg).providers name = some q ∧
        q.consecutive_failures = some (info.consecutive_failures.getD 0 + 1)) := by
  refine ⟨acceptableText_iff r, ?_, ?_⟩
  · intro t ht hacc
    subst ht
    exact generateContentAux_success_step invoke prompt name rest m info t hd hl hav hi hacc
  · intro hacc
    refine ⟨?_, _, registerFailure_lookup_self m name emptyShortMsg info hl, rfl⟩
    cases r with
    | none => exact generateContentAux_fail_none invoke prompt name rest m info hd hl hav hi
    | some t =>
      exact generateContentAux_fail_short invoke prompt name rest m info t hd hl hav hi hacc

/-- Witness for C4: a provider returning the empty string is rejected, a
failure is recorded for it (counter 0 → 1), and dispatch falls through. -/
theorem C4_witness :
    acceptableText (some "") = false ∧
    generateContentAux invokeEmpty "ola" mOne ["gemini"] =
      { generateContentAux invokeEmpty "ola" (registerFailure mOne "gemini" emptyShortMsg) []
          with events := Attempt.tried "gemini" ::
            (generateContentAux invokeEmpty "ola"
              (registerFailure mOne "gemini" emptyShortMsg) []).events } ∧
    ∃ q, lookupProv (registerFailure mOne "gemini" emptyShortMsg).providers "gemini" =
        some q ∧ q.consecutive_failures = some 1 := by
  obtain ⟨hiff, haccept, hreject⟩ :=
    C4_result_acceptance invokeEmpty "ola" mOne "gemini" [] (some "") pHealthy
      (by decide) (by decide) (by decide) rfl
  obtain ⟨hstep, hq⟩ := hreject (by decide)
  exact ⟨by decide, hstep, hq⟩

/-! ### Claim C7 -/

/-- C7: when the highest-priority provider `a` is disabled
(`available = False`) and the lower-priority provider `b` is healthy and
returns an acceptable text, the dispatch returns `b`'s stripped result,
the trace lists `a` as skipped (not tried) and `b` as tried, and `a`'s
registry entry — its `consecutive_failures` included — is exactly what it
was before the call: skipping does not count as a failure. -/
theorem C7_disabled_skipped_not_tried (invoke : String → Except String (Option String))
    (prompt : String) (m : AIManager) (a b : String) (pa pb : ProviderInfo) (t : String)
    (horder : m.fallback_order = [a, b])
    (ha : lookupProv m.providers a = some pa) (hav : pa.available = false)
    (hbd : b ∉ m.disabled_providers)
    (hb : lookupProv m.providers b = some pb) (hbav : pb.available = true)
    (hi : invoke b = Except.ok (some t)) (hlen : 10 < (pyStrip t).length) :
    generate_content invoke m prompt =
      ⟨registerSuccess m b, pyStrip t, false, [Attempt.skipped a, Attempt.tried b]⟩ ∧
    lookupProv (generate_content invoke m prompt).state.providers a = some pa := by
  have hab : a ≠ b := by
    intro he
    subst he
    rw [ha] at hb
    injection hb with h2
    rw [h2, hbav] at hav
    cases hav
  have hacc : acceptableText (some t) = true := (acceptableText_iff (some t)).mpr ⟨t, rfl, hlen⟩
  have hstep2 : generateContentAux invoke prompt m [b] =
      ⟨registerSuccess m b, pyStrip t, false, [Attempt.tried b]⟩ :=
    generateContentAux_success_step invoke prompt b [] m pb t hbd hb hbav hi hacc
  have hmain : generateContentAux invoke prompt m [a, b] =
      ⟨registerSuccess m b, pyStrip t, false, [Attempt.skipped a, Attempt.tried b]⟩ := by
    by_cases hd : a ∈ m.disabled_providers
    · rw [generateContentAux_skip_disabled invoke prompt a [b] m hd, hstep2]
    · rw [generateContentAux_skip_unavailable invoke prompt a [b] m pa hd ha hav, hstep2]
  constructor
  · show generateContentAux invoke prompt m m.fallback_order = _
    rw [horder]
    exact hmain
  · show lookupProv (generateContentAux invoke prompt m m.fallback_order).state.providers a =
      some pa
    rw [horder, hmain]
    show lookupProv (registerSuccess m b).providers a = some pa
    rw [registerSuccess_lookup_ne m b a hab]
    exact ha

/-- Witness for C7 on `mAB`: "gemini" is disabled, "groq" answers; the
trace records "gemini" skipped and its entry is untouched. -/
theorem C7_witness :
    generate_content invokeLong mAB "ola" =
      ⟨registerSuccess mAB "groq", pyStrip "resposta detalhada do provedor", false,
        [Attempt.skipped "gemini", Attempt.tried "groq"]⟩ ∧
    lookupProv (generate_content invokeLong mAB "ola").state.providers "gemini" =
      some pDown :=
  C7_disabled_skipped_not_tried invokeLong "ola" mAB "gemini" "groq" pDown pHealthy2
    "resposta detalhada do provedor" rfl (by decide) (by decide) (by decide) (by decide)
    (by decide) rfl (by decide)

/-! ### Claim C10 -/

theorem entryDisabledOk_of_none (ps : List (String × ProviderInfo)) (a : String)
    (h : lookupProv ps a = none) : entryDisabledOk ps a = true := by
  unfold entryDisabledOk
  rw [h]

theorem entryDisabledOk_of_some (ps : List (String × ProviderInfo)) (a : String)
    (p : ProviderInfo) (h : lookupProv ps a = some p) :
    entryDisabledOk ps a = !p.available := by
  unfold entryDisabledOk
  rw [h]

theorem mem_addDisabled (s : List String) (name a : String) :
    a ∈ addDisabled s name ↔ a = name ∨ a ∈ s := by
  unfold addDisabled
  by_cases hm : name ∈ s
  · rw [if_pos hm]
    constructor
    · exact fun h => Or.inr h
    · rintro (rfl | h)
      · exact hm
      · exact h
  · rw [if_neg hm]
    simp [List.mem_cons]

theorem registerFailure_disabled_of_lt (m : AIManager) (name err : String) (p : ProviderInfo)
    (h : lookupProv m.providers name = some p)
    (hc : ¬ p.max_errors.getD 2 ≤ p.consecutive_failures.getD 0 + 1) :
    (registerFailure m name err).disabled_providers = m.disabled_providers := by
  unfold registerFailure registerFailureFull
  rw [h]
  simp [hc]

theorem registerFailure_disabled_of_ge (m : AIManager) (name err : String) (p : ProviderInfo)
    (h : lookupProv m.providers name = some p)
    (hc : p.max_errors.getD 2 ≤ p.consecutive_failures.getD 0 + 1) :
    (registerFailure m name err).disabled_providers =
      addDisabled m.disabled_providers name := by
  unfold registerFailure registerFailureFull
  rw [h]
  simp [hc]

theorem entryDisabledOk_congr (ps ps' : List (String × ProviderInfo)) (a : String)
    (h : lookupProv ps' a = lookupProv ps a) :
    entryDisabledOk ps' a = entryDisabledOk ps a := by
  unfold entryDisabledOk
  rw [h]

theorem disabledConsistent_registerSuccess (m : AIManager) (name : String)
    (h : disabledConsistent m = true) :
    disabledConsistent (registerSuccess m name) = true := by
  rw [disabledConsistent, List.all_eq_true] at h ⊢
  intro a ha
  rw [registerSuccess_disabled] at ha
  have h2 := h a ha
  by_cases hn : a = name
  · subst hn
    cases hl : lookupProv m.providers a with
    | none =>
      rw [registerSuccess_of_none m a hl]
      exact h2
    | some p =>
      rw [entryDisabledOk_of_some _ _ _ (registerSuccess_lookup_self m a p hl)]
      rw [entryDisabledOk_of_some _ _ _ hl] at h2
      exact h2
  · rw [entryDisabledOk_congr _ _ _ (registerSuccess_lookup_ne m name a hn)]
    exact h2

theorem disabledConsistent_registerFailure (m : AIManager) (name err : String)
    (h : disabledConsistent m = true) :
    disabledConsistent (registerFailure m name err) = true := by
  rw [disabledConsistent, List.all_eq_true] at h ⊢
  intro a ha
  by_cases hn : a = name
  · subst hn
    cases hl : lookupProv m.providers a with
    | none =>
      rw [registerFailure_of_none m a err hl] at ha ⊢
      exact h a ha
    | some p =>
      rw [entryDisabledOk_of_some _ _ _ (registerFailure_lookup_self m a err p hl)]
      by_cases hc : p.max_errors.getD 2 ≤ p.consecutive_failures.getD 0 + 1
      · simp [hc]
      · rw [registerFailure_disabled_of_lt m a err p hl hc] at ha
        have h2 := h a ha
        rw [entryDisabledOk_of_some _ _ _ hl] at h2
        simpa [hc] using h2
  · have ham : a ∈ m.disabled_providers := by
      cases hl : lookupProv m.providers name with
      | none =>
        rwa [registerFailure_of_none m name err hl] at ha
      | some p =>
        by_cases hc : p.max_errors.getD 2 ≤ p.consecutive_failures.getD 0 + 1
        · rw [registerFailure_disabled_of_ge m name err p hl hc] at ha
          rcases (mem_addDisabled _ _ _).mp ha with he | hm2
          · exact absurd he hn
          · exact hm2
        · rwa [registerFailure_disabled_of_lt m name err p hl hc] at ha
    have h2 := h a ham
    cases hl2 : lookupProv m.providers a with
    | none =>
      rw [entryDisabledOk_of_none _ _
        (by rw [registerFailure_lookup_ne m name err a hn]; exact hl2)]
    | some p2 =>
      rw [entryDisabledOk_of_some _ _ p2
        (by rw [registerFailure_lookup_ne m name err a hn]; exact hl2)]
      rwa [entryDisabledOk_of_some _ _ _ hl2] at h2

theorem disabledConsistent_generateContentAux (invoke : String → Except String (Option String))
    (prompt : String) :
    ∀ (order : List String) (m : AIManager), disabledConsistent m = true →
      disabledConsistent (generateContentAux invoke prompt m order).state = true
  | [], _, h => h
  | name :: rest, m, h => by
    have ih := fun m' h' => disabledConsistent_generateContentAux invoke prompt rest m' h'
    by_cases hd : name ∈ m.disabled_providers
    · rw [generateContentAux_skip_disabled invoke prompt name rest m hd]
      exact ih m h
    · cases hl : lookupProv m.providers name with
      | none =>
        rw [generateContentAux_skip_missing invoke prompt name rest m hd hl]
        exact ih m h
      | some info =>
        cases hav : info.available with
        | false =>
          rw [generateContentAux_skip_unavailable invoke prompt name rest m info hd hl hav]
          exact ih m h
        | true =>
          cases hi : invoke name with
          | error e =>
            rw [generateContentAux_fail_error invoke prompt name rest m info e hd hl hav hi]
            exact ih _ (disabledConsistent_registerFailure m name e h)
          | ok r =>
            cases r with
            | none =>
              rw [generateContentAux_fail_none invoke prompt name rest m info hd hl hav hi]
              exact ih _ (disabledConsistent_registerFailure m name emptyShortMsg h)
            | some t =>
              cases hacc : acceptableText (some t) with
              | true =>
                rw [generateContentAux_success_step invoke prompt name rest m info t hd hl
                  hav hi hacc]
                exact disabledConsistent_registerSuccess m name h
              | false =>
                rw [generateContentAux_fail_short invoke prompt name rest m info t hd hl
                  hav hi hacc]
                exact ih _ (disabledConsistent_registerFailure m name emptyShortMsg h)

/-- C10: the two representations of disablement agree — the set starts
empty at construction (where the invariant holds trivially), and every
dispatch call preserves the property that each name in
`disabled_providers` has `available = False` in `providers`, because
`_register_failure` updates both together when the threshold is crossed. -/
theorem C10_disabled_set_flag_consistent :
    (∀ m : AIManager, m.disabled_providers = [] → disabledConsistent m = true) ∧
    (∀ (invoke : String → Except String (Option String)) (m : AIManager) (prompt : String),
      disabledConsistent m = true →
      disabledConsistent (generate_content invoke m prompt).state = true) := by
  constructor
  · intro m hm
    rw [disabledConsistent, hm]
    rfl
  · intro invoke m prompt h
    exact disabledConsistent_generateContentAux invoke prompt m.fallback_order m h

/-- Witness for C10: the freshly-empty state is consistent, and a dispatch
over `mAB` (with its disabled provider) keeps the two representations in
agreement. -/
theorem C10_witness :
    disabledConsistent mEmpty = true ∧
    disabledConsistent (generate_content invokeBoom mAB "ola").state = true :=
  ⟨C10_disabled_set_flag_consistent.1 mEmpty rfl,
   C10_disabled_set_flag_consistent.2 invokeBoom mAB "ola" (by decide)⟩

/-! ### Claim C6 -/

theorem keyLe_trans (x y z : Option Nat) (h1 : keyLe x y = true) (h2 : keyLe y z = true) :
    keyLe x z = true := by
  cases x <;> cases y <;> cases z <;> simp_all [keyLe]
  omega

theorem keyLe_total (x y : Option Nat) : (keyLe x y || keyLe y x) = true := by
  cases x <;> cases y <;> simp [keyLe]
  omega

theorem keyLe_refl (x : Option Nat) : keyLe x x = true := by
  cases x <;> simp [keyLe]

/-- C6: the fallback order produced by the sort of line 168 is sorted by
ascending priority (missing providers or priorities counting as infinity,
as in the source's `float('inf')` default), and any two providers with
equal sort keys keep their relative registration order — the sort is
stable, so dispatch order is deterministic. -/
theorem C6_fallback_order_sorted_stable (m : AIManager) :
    List.Pairwise (fun a b => keyLe (priorityKey m a) (priorityKey m b) = true)
      (sortFallback m) ∧
    ∀ a b, priorityKey m a = priorityKey m b →
      List.Sublist [a, b] m.fallback_order →
      List.Sublist [a, b] (sortFallback m) := by
  have htrans : ∀ (x y z : String), keyLe (priorityKey m x) (priorityKey m y) = true →
      keyLe (priorityKey m y) (priorityKey m z) = true →
      keyLe (priorityKey m x) (priorityKey m z) = true :=
    fun x y z => keyLe_trans _ _ _
  have htotal : ∀ (x y : String),
      (keyLe (priorityKey m x) (priorityKey m y) ||
        keyLe (priorityKey m y) (priorityKey m x)) = true :=
    fun x y => keyLe_total _ _
  constructor
  · exact @List.sorted_mergeSort String
      (fun a b => keyLe (priorityKey m a) (priorityKey m b)) htrans htotal m.fallback_order
  · intro a b hk hsub
    exact @List.pair_sublist_mergeSort String
      (fun a b => keyLe (priorityKey m a) (priorityKey m b)) a b m.fallback_order
      htrans htotal
      (by show keyLe (priorityKey m a) (priorityKey m b) = true
          rw [hk]
          exact keyLe_refl _) hsub

/-- Witness for C6 on two providers registered with equal priority: the
sorted order is priority-sorted and preserves their registration order. -/
theorem C6_witness :
    List.Pairwise (fun a b => keyLe (priorityKey mTie a) (priorityKey mTie b) = true)
      (sortFallback mTie) ∧
    List.Sublist ["gemini", "groq"] (sortFallback mTie) :=
  ⟨(C6_fallback_order_sorted_stable mTie).1,
   (C6_fallback_order_sorted_stable mTie).2 "gemini" "groq" (by decide)
     (List.Sublist.refl _)⟩
